import Mathlib

/-!
Verification of the process-orchestration core in `src/cli/handlers.ts`.

The TypeScript code coordinates external processes through promises and
event callbacks.  We embed it shallowly: each child process is summarised
by its terminal event (an `error` event carrying the spawn error, or an
`exit`/`close` event carrying the exit code and, for the version probe,
the collected standard output).  An orchestration run is then a pure
function from the environment (the events the external world delivers and
the results the enrichment/generation collaborators return) to the list
of externally visible calls it makes together with the final state of the
returned promise (`some (.ok ())` resolved, `some (.error r)` rejected,
`none` never settled).
-/

namespace Solita

/-! ## String containment helpers (used to state "message contains v") -/

/-- Boolean test that the first list is a prefix of the second. -/
def listStartsWith : List Char → List Char → Bool
  | [], _ => true
  | _ :: _, [] => false
  | a :: as, b :: bs => if a = b then listStartsWith as bs else false

/-- Boolean test that `sub` occurs contiguously inside the second list. -/
def hasSub (sub : List Char) : List Char → Bool
  | [] => sub.isEmpty
  | c :: cs => listStartsWith sub (c :: cs) || hasSub sub cs

/-- `strHas s sub` holds when `sub` is a contiguous substring of `s`
(the shallow rendering of JavaScript `s.includes(sub)`). -/
def strHas (s sub : String) : Bool := hasSub sub.toList s.toList

/-! ## The version-string pattern of `getAnchorCommandVersion`

The probe output is matched in the source against the regular expression
matching the literal text `anchor-cli ` followed by a captured group of
three runs of digits separated by dots; `match` returns the leftmost
match and the code uses the first capture group. -/

/-- One `digits+ '.'` step of the semantic-version group (the greedy digit
run must be non-empty and be followed by a literal dot). -/
def parseNumDot (cs : List Char) : Option (List Char × List Char) :=
  let ds := cs.takeWhile Char.isDigit
  let rest := cs.dropWhile Char.isDigit
  if ds.isEmpty then none
  else
    match rest with
    | '.' :: rest2 => some (ds ++ ['.'], rest2)
    | _ => none

/-- The final digit run of the semantic-version group. -/
def parseNum (cs : List Char) : Option (List Char) :=
  let ds := cs.takeWhile Char.isDigit
  if ds.isEmpty then none else some ds

/-- The capture group of the pattern, anchored at the current position:
`digits '.' digits '.' digits`. -/
def matchVersionAt (cs : List Char) : Option String :=
  match parseNumDot cs with
  | none => none
  | some (p1, r1) =>
    match parseNumDot r1 with
    | none => none
    | some (p2, r2) =>
      match parseNum r2 with
      | none => none
      | some p3 => some (String.mk (p1 ++ p2 ++ p3))

/-- The literal part of the pattern. -/
def anchorCliLit : List Char := "anchor-cli ".toList

/-- Attempt the whole pattern anchored at the current position. -/
def tryMatchAt (cs : List Char) : Option String :=
  if listStartsWith anchorCliLit cs then matchVersionAt (cs.drop anchorCliLit.length)
  else none

/-- Leftmost match of the fixed pattern, returning the capture group —
the shallow rendering of `stdoutData.match(re)` followed by `match[1]`. -/
def matchAnchorCli : List Char → Option String
  | [] => tryMatchAt []
  | c :: cs =>
    match tryMatchAt (c :: cs) with
    | some v => some v
    | none => matchAnchorCli cs

/-! ## Process events and rejection values -/

/-- A Node.js `Error` object as far as the handlers inspect it:
its `name` and its `message`. -/
structure SpawnErr where
  name : String
  message : String
deriving DecidableEq, Repr

/-- A value passed to `reject`: the source rejects both with plain
strings and with `Error` objects. -/
inductive Rejection where
  | str (s : String)
  | err (name message : String)
deriving DecidableEq, Repr

/-- Terminal event of the version-probe child process: an `error` event,
or a `close` event carrying the exit code (`none` renders JavaScript
`null`) together with the collected standard output. -/
inductive ProbeEvent where
  | error (e : SpawnErr)
  | close (code : Option Int) (stdout : String)
deriving DecidableEq, Repr

/-- Terminal event of the IDL-generation child process: an `error` event
or an `exit` event carrying the exit code. -/
inductive ProcEvent where
  | error (e : SpawnErr)
  | exit (code : Option Int)
deriving DecidableEq, Repr

/-- JavaScript template rendering of the nullable exit code. -/
def codeText : Option Int → String
  | some n => toString n
  | none => "null"

/-- Shallow embedding of `getAnchorCommandVersion` (handlers.ts 67–100)
as a function of the probe child's terminal event.  On an `error` event
whose error is named `Error` with `ENOENT` in its message it rejects with
the plain string used by the source; other errors are rejected as-is.
On `close` with code 0 it pattern-matches the collected stdout; on any
other close code it rejects with the exit-code error. -/
def getAnchorCommandVersion : ProbeEvent → Except Rejection String
  | .error e =>
    if e.name = "Error" ∧ strHas e.message "ENOENT" = true then
      .error (.str "Anchor is not installed!")
    else
      .error (.err e.name e.message)
  | .close code stdoutData =>
    if code = some 0 then
      match matchAnchorCli stdoutData.toList with
      | none => .error (.str "Anchor version matching failed")
      | some v => .ok v
    else
      .error (.err "Error" ("Process exited with code " ++ codeText code))

/-! ## Manifest version resolution -/

/-- A dependency entry of the parsed manifest: the source's
`string | \x7b version: string \x7d` with possible extra fields kept
alongside the `version` field. -/
inductive DepValue where
  | str (v : String)
  | table (version : String) (extra : List (String × String))
deriving DecidableEq, Repr

/-- The parsed `Cargo.toml` as typed in the source (`CargoToml`):
a record of dependency entries. -/
structure CargoToml where
  dependencies : List (String × DepValue)
deriving DecidableEq, Repr

/-- JavaScript record lookup: the first binding of the key, else `none`
(rendering `undefined`). -/
def recordGet : List (String × DepValue) → String → Option DepValue
  | [], _ => none
  | (k, v) :: rest, key => if k = key then some v else recordGet rest key

/-- Shallow embedding of `getAnchorVersionInToml` (handlers.ts 102–109).
The file read and TOML parse (`parseCargoToml`) are external
capabilities; the already-parsed table is passed alongside the path,
which the source only uses inside the error message. -/
def getAnchorVersionInToml (cargoToml : String) (parsed : CargoToml) :
    Except String String :=
  match recordGet parsed.dependencies "anchor-lang" with
  | none => .error ("anchor_lang not found as dependency in " ++ cargoToml)
  | some (.str v) => .ok v
  | some (.table v _) => .ok v

/-! ## Configurations -/

/-- Prettier options are opaque to the handlers; a key/value list stands
in for the object. -/
abbrev PrettierOptions := List (String × String)

/-- The IDL returned by `enhanceIdl` is opaque to the handlers; its JSON
text stands in for it. -/
abbrev Idl := String

/-- Modelled from the spec: `SolitaConfig` lives in `src/cli/types.ts`,
which is not part of the sources; its fields are those the spec's
ProjectConfig lists and `handlers.ts` accesses (program name, IDL output
directory, SDK output directory, program source directory, optional
type-alias map, optional serializer map). -/
structure SolitaConfig where
  programName : String
  idlDir : String
  sdkDir : String
  programDir : String
  typeAliases : Option (List (String × String))
  serializers : Option (List (String × String))
deriving DecidableEq, Repr

/-- Modelled from the spec: the anchor variant of the config additionally
carries the optional "remaining accounts" flag destructured by
`handleAnchor`. -/
structure SolitaConfigAnchor extends SolitaConfig where
  anchorRemainingAccounts : Option Bool
deriving DecidableEq, Repr

/-- Modelled from the spec: the shank variant of the config additionally
carries the binary-install directory destructured by `handleShank`. -/
structure SolitaConfigShank extends SolitaConfig where
  binaryInstallDir : String
deriving DecidableEq, Repr

/-- `path.join` as used here: joining a directory with a file name. -/
def pathJoin (a b : String) : String := a ++ "/" ++ b

/-- The `cwd`-only spawn options built by the handlers. -/
structure SpawnOptionsWithoutStdio where
  cwd : String
deriving DecidableEq, Repr

/-- `RustbinConfig` as constructed in `handleShank` (handlers.ts
141–148). -/
structure RustbinConfig where
  rootDir : String
  binaryName : String
  binaryCrateName : String
  libName : String
  cargoToml : String
  dryRun : Bool
deriving DecidableEq, Repr

/-- The result destructured from `rustbinMatch` (handlers.ts 170–171):
the resolved path, the nullable installed-binary version and the
library-declared version. -/
structure RustbinMatchReturn where
  fullPathToBinary : String
  binVersion : Option String
  libVersion : String
deriving DecidableEq, Repr

/-- The argument record of the confirmation hook (handlers.ts 205–211). -/
structure ConfirmInstallArgs where
  binaryName : String
  libVersion : String
  libName : String
  binVersion : Option String
  fullPathToBinary : String
deriving DecidableEq, Repr

/-- `confirmAutoMessageLog` (handlers.ts 205–221): logs and resolves
`true` — always approves. -/
def confirmAutoMessageLog (_ : ConfirmInstallArgs) : Bool := true

/-! ## Orchestration runs as traces

A run is summarised by the list of externally visible calls it makes, in
order, and the final state of the promise it returns: `some (.ok ())`
resolved, `some (.error r)` rejected with `r`, and `none` never
settled. -/

/-- An externally visible call of an orchestration run, parametrised by
the config type handed to `enhanceIdl`. -/
inductive Event (Cfg : Type) where
  | spawn (cmd : String) (args : List String) (cwd : String)
  | enhance (config : Cfg) (binVersion : String) (libVersion : String)
  | generate (idl : Idl) (sdkDir : String) (prettier : Option PrettierOptions)
      (typeAliases : Option (List (String × String)))
      (serializers : Option (List (String × String)))
      (anchorRemainingAccounts : Option Bool)
deriving DecidableEq, Repr

/-- Trace and promise outcome of one orchestration run. -/
abbrev RunResult (Cfg : Type) := List (Event Cfg) × Option (Except Rejection Unit)

/-- The promise executor shared verbatim by `handleAnchor` (handlers.ts
38–64) and `handle` (handlers.ts 180–202): on the child's `error` event
it logs and rejects with the error; on `exit` it ignores the exit code,
awaits `enhanceIdl`, then awaits `generateTypeScriptSDK`, then resolves.
A rejection of either awaited collaborator escapes the `async` exit
callback, so neither `resolve` nor `reject` runs and the promise never
settles (`none`). -/
def idlGeneratorRun {Cfg : Type} (spawnEv enhanceEv : Event Cfg)
    (generateEv : Idl → Event Cfg) (idlProc : ProcEvent)
    (enhanceRes : Except Rejection Idl) (generateRes : Except Rejection Unit) :
    RunResult Cfg :=
  match idlProc with
  | .error e => ([spawnEv], some (.error (.err e.name e.message)))
  | .exit _ =>
    match enhanceRes with
    | .error _ => ([spawnEv, enhanceEv], none)
    | .ok idl =>
      match generateRes with
      | .error _ => ([spawnEv, enhanceEv, generateEv idl], none)
      | .ok _ => ([spawnEv, enhanceEv, generateEv idl], some (.ok ()))

/-- Environment of a `handleAnchor` run: the probe child's terminal
event, the parsed manifest, the IDL-generation child's terminal event and
the results the two collaborators would return. -/
structure AnchorEnv where
  probe : ProbeEvent
  parsed : CargoToml
  idlProc : ProcEvent
  enhanceRes : Except Rejection Idl
  generateRes : Except Rejection Unit

/-- `env` with the IDL-generation child exiting with code `c`. -/
def envWithExit (env : AnchorEnv) (c : Option Int) : AnchorEnv :=
  ⟨env.probe, env.parsed, .exit c, env.enhanceRes, env.generateRes⟩

/-- Shallow embedding of `handleAnchor` (handlers.ts 17–65).  It awaits
the version probe, then the manifest resolution (a thrown `Error`
becomes a rejection of the async function), aborts on a version
mismatch, and otherwise spawns `anchor build --idl idlDir` in
`programDir` and hands the run to the shared executor. -/
def handleAnchor (config : SolitaConfigAnchor)
    (prettierConfig : Option PrettierOptions) (env : AnchorEnv) :
    RunResult SolitaConfigAnchor :=
  match getAnchorCommandVersion env.probe with
  | .error r => ([], some (.error r))
  | .ok anchorCliVersion =>
    match getAnchorVersionInToml (pathJoin config.programDir "Cargo.toml") env.parsed with
    | .error m => ([], some (.error (.err "Error" m)))
    | .ok cargoAnchorVersion =>
      if anchorCliVersion ≠ cargoAnchorVersion then
        ([], some (.error (.err "Error"
          ("Anchor version mismatch! Selected anchor cli: " ++ anchorCliVersion ++
            ", in Cargo.toml: " ++ cargoAnchorVersion))))
      else
        idlGeneratorRun
          (.spawn "anchor" ["build", "--idl", config.idlDir] config.programDir)
          (.enhance config anchorCliVersion cargoAnchorVersion)
          (fun idl => .generate idl config.sdkDir prettierConfig
            config.typeAliases config.serializers config.anchorRemainingAccounts)
          env.idlProc env.enhanceRes env.generateRes

/-- Environment of a `handle` run: the (successful) `rustbinMatch`
result, the IDL-generation child's terminal event and the collaborator
results. -/
structure HandleEnv where
  rustbinRes : RustbinMatchReturn
  idlProc : ProcEvent
  enhanceRes : Except Rejection Idl
  generateRes : Except Rejection Unit

/-- `env` with the IDL-generation child exiting with code `c`. -/
def henvWithExit (env : HandleEnv) (c : Option Int) : HandleEnv :=
  ⟨env.rustbinRes, .exit c, env.enhanceRes, env.generateRes⟩

/-- Shallow embedding of `handle` (handlers.ts 160–203).  It awaits
`rustbinMatch`, throws when the installed-binary version is null, and
otherwise spawns the resolved binary and hands the run to the shared
executor. -/
def handle (config : SolitaConfig) (rustbinConfig : RustbinConfig)
    (spawnArgs : List String) (spawnOpts : SpawnOptionsWithoutStdio)
    (prettierConfig : Option PrettierOptions)
    (anchorRemainingAccounts : Option Bool) (env : HandleEnv) :
    RunResult SolitaConfig :=
  match env.rustbinRes.binVersion with
  | none => ([], some (.error (.err "Error"
      ("rustbin was unable to determine installed version " ++
        rustbinConfig.binaryName ++ ", it may not have been installed correctly."))))
  | some binVersion =>
    idlGeneratorRun
      (.spawn env.rustbinRes.fullPathToBinary spawnArgs spawnOpts.cwd)
      (.enhance config binVersion env.rustbinRes.libVersion)
      (fun idl => .generate idl config.sdkDir prettierConfig
        config.typeAliases config.serializers anchorRemainingAccounts)
      env.idlProc env.enhanceRes env.generateRes

/-- Shallow embedding of `handleShank` (handlers.ts 132–158): builds the
shank spawn arguments and rustbin config and delegates to `handle` with
the remaining-accounts flag set to `false`. -/
def handleShank (config : SolitaConfigShank)
    (prettierConfig : Option PrettierOptions) (env : HandleEnv) :
    RunResult SolitaConfig :=
  handle config.toSolitaConfig
    ⟨config.binaryInstallDir, "shank", "shank-cli", "shank",
      pathJoin config.programDir "Cargo.toml", false⟩
    ["idl", "--out-dir", config.idlDir, "--crate-root", config.programDir]
    ⟨config.programDir⟩ prettierConfig (some false) env

/-- Classifier for claim C7: a rejection value is recognisable as
"executable missing" when it is the probe's dedicated not-installed
string, or an error whose message carries `ENOENT`. -/
def execMissing : Rejection → Bool
  | .str s => s = "Anchor is not installed!"
  | .err _ m => strHas m "ENOENT"

/-! ## Concrete sample inputs -/

/-- A sample anchor config. -/
def sampleCfgA : SolitaConfigAnchor :=
  ⟨⟨"myprog", "idl", "sdk", "program", none, none⟩, none⟩

/-- A sample base config. -/
def sampleCfg : SolitaConfig := ⟨"myprog", "idl", "sdk", "program", none, none⟩

/-- The rustbin config `handleShank` would build for `sampleCfg`. -/
def sampleRc : RustbinConfig :=
  ⟨"bin", "shank", "shank-cli", "shank", "program/Cargo.toml", false⟩

/-- A successful `rustbinMatch` result. -/
def sampleRbr : RustbinMatchReturn := ⟨"bin/shank", some "0.0.12", "0.0.12"⟩

/-- A manifest declaring `anchor-lang` as the bare string `0.27.0`. -/
def tomlStr : CargoToml := ⟨[("anchor-lang", .str "0.27.0")]⟩

/-- A manifest declaring `anchor-lang` as a table with an extra field. -/
def tomlTab : CargoToml := ⟨[("anchor-lang", .table "0.26.0" [("features", "init-if-needed")])]⟩

/-- A probe close event whose stdout carries `anchor-cli 0.27.0`. -/
def sampleProbe : ProbeEvent := .close (some 0) "anchor-cli 0.27.0\n"

/-- A fully successful `handleAnchor` environment. -/
def sampleEnvA : AnchorEnv :=
  ⟨sampleProbe, tomlStr, .exit (some 0), .ok "idl-json", .ok ()⟩

/-- A `handleAnchor` environment whose manifest declares `0.26.0` while
the probe reports `0.27.0`. -/
def sampleEnvAMismatch : AnchorEnv :=
  ⟨sampleProbe, ⟨[("anchor-lang", .str "0.26.0")]⟩, .exit (some 0), .ok "idl-json", .ok ()⟩

/-- A `handleAnchor` environment whose enrichment collaborator rejects. -/
def sampleEnvAEnhanceFail : AnchorEnv :=
  ⟨sampleProbe, tomlStr, .exit (some 0), .error (.err "Error" "boom"), .ok ()⟩

/-- A fully successful `handle` environment. -/
def sampleEnvH : HandleEnv := ⟨sampleRbr, .exit (some 0), .ok "idl-json", .ok ()⟩

/-- A `handle` environment whose installer could not probe a version. -/
def sampleEnvHNoBin : HandleEnv :=
  ⟨⟨"bin/shank", none, "0.0.12"⟩, .exit (some 0), .ok "idl-json", .ok ()⟩

/-- A `handle` environment whose generation collaborator rejects. -/
def sampleEnvHGenFail : HandleEnv :=
  ⟨sampleRbr, .exit (some 0), .ok "idl-json", .error (.err "Error" "boom")⟩

/-- The spawn error Node raises for a missing executable. -/
def sampleEnoent : SpawnErr := ⟨"Error", "spawn anchor ENOENT"⟩

/-- A `handleAnchor` environment whose IDL-generation spawn fails with
the missing-executable error. -/
def sampleEnvASpawnFail : AnchorEnv :=
  ⟨sampleProbe, tomlStr, .error sampleEnoent, .ok "idl-json", .ok ()⟩

/-- A `handle` environment whose IDL-generation spawn fails with the
missing-executable error. -/
def sampleEnvHSpawnFail : HandleEnv :=
  ⟨sampleRbr, .error sampleEnoent, .ok "idl-json", .ok ()⟩

/-! ## Helper lemmas -/

theorem toList_append (s t : String) : (s ++ t).toList = s.toList ++ t.toList := by
  cases s; cases t; rfl

theorem toList_empty : ("" : String).toList = [] := rfl

theorem listStartsWith_append (a b : List Char) : listStartsWith a (a ++ b) = true := by
  induction a with
  | nil => rfl
  | cons c cs ih => simp [listStartsWith, ih]

theorem hasSub_nil (l : List Char) : hasSub [] l = true := by
  cases l <;> simp [hasSub, listStartsWith, List.isEmpty]

theorem hasSub_append (v b : List Char) : ∀ a : List Char, hasSub v (a ++ (v ++ b)) = true := by
  intro a
  induction a with
  | nil =>
    cases v with
    | nil => simpa using hasSub_nil b
    | cons x xs =>
      simp only [List.nil_append, hasSub, Bool.or_eq_true]
      exact Or.inl (listStartsWith_append (x :: xs) b)
  | cons c cs ih => simp [hasSub, ih]

theorem strHas_split (s a v b : String)
    (h : s.toList = a.toList ++ (v.toList ++ b.toList)) : strHas s v = true := by
  unfold strHas
  rw [h]
  exact hasSub_append v.toList b.toList a.toList

theorem idlGeneratorRun_exit_code_irrelevant {Cfg : Type}
    (s e : Event Cfg) (g : Idl → Event Cfg) (c c' : Option Int)
    (er : Except Rejection Idl) (gr : Except Rejection Unit) :
    idlGeneratorRun s e g (.exit c) er gr = idlGeneratorRun s e g (.exit c') er gr := by
  cases er <;> cases gr <;> rfl

theorem idlGeneratorRun_spawn_error {Cfg : Type}
    (s e : Event Cfg) (g : Idl → Event Cfg) (err : SpawnErr)
    (er : Except Rejection Idl) (gr : Except Rejection Unit) :
    idlGeneratorRun s e g (.error err) er gr =
      ([s], some (.error (.err err.name err.message))) := rfl

theorem idlGeneratorRun_ok {Cfg : Type}
    (s e : Event Cfg) (g : Idl → Event Cfg) (c : Option Int) (idl : Idl) :
    idlGeneratorRun s e g (.exit c) (.ok idl) (.ok ()) =
      ([s, e, g idl], some (.ok ())) := rfl

theorem idlGeneratorRun_enhance_fail {Cfg : Type}
    (s e : Event Cfg) (g : Idl → Event Cfg) (c : Option Int) (r : Rejection)
    (gr : Except Rejection Unit) :
    idlGeneratorRun s e g (.exit c) (.error r) gr = ([s, e], none) := rfl

theorem idlGeneratorRun_generate_fail {Cfg : Type}
    (s e : Event Cfg) (g : Idl → Event Cfg) (c : Option Int) (idl : Idl) (r : Rejection) :
    idlGeneratorRun s e g (.exit c) (.ok idl) (.error r) =
      ([s, e, g idl], none) := rfl

theorem idlGeneratorRun_head {Cfg : Type}
    (s e : Event Cfg) (g : Idl → Event Cfg) (p : ProcEvent)
    (er : Except Rejection Idl) (gr : Except Rejection Unit) :
    ∃ rest, (idlGeneratorRun s e g p er gr).1 = s :: rest := by
  cases p <;> cases er <;> cases gr <;> exact ⟨_, rfl⟩

/-- Reduction of `handleAnchor` past the version gate when both versions
resolve to the same string. -/
theorem handleAnchor_run (config : SolitaConfigAnchor)
    (pc : Option PrettierOptions) (env : AnchorEnv) (v : String)
    (h₁ : getAnchorCommandVersion env.probe = .ok v)
    (h₂ : getAnchorVersionInToml (pathJoin config.programDir "Cargo.toml") env.parsed = .ok v) :
    handleAnchor config pc env =
      idlGeneratorRun
        (.spawn "anchor" ["build", "--idl", config.idlDir] config.programDir)
        (.enhance config v v)
        (fun idl => .generate idl config.sdkDir pc
          config.typeAliases config.serializers config.anchorRemainingAccounts)
        env.idlProc env.enhanceRes env.generateRes := by
  unfold handleAnchor
  rw [h₁, h₂]
  simp

/-- Reduction of `handle` past the null check when the installed-binary
version is present. -/
theorem handle_run (config : SolitaConfig) (rc : RustbinConfig)
    (args : List String) (so : SpawnOptionsWithoutStdio)
    (pc : Option PrettierOptions) (ra : Option Bool) (env : HandleEnv)
    (bv : String) (hb : env.rustbinRes.binVersion = some bv) :
    handle config rc args so pc ra env =
      idlGeneratorRun
        (.spawn env.rustbinRes.fullPathToBinary args so.cwd)
        (.enhance config bv env.rustbinRes.libVersion)
        (fun idl => .generate idl config.sdkDir pc
          config.typeAliases config.serializers ra)
        env.idlProc env.enhanceRes env.generateRes := by
  unfold handle
  rw [hb]

/-- `handleAnchor` only looks at the IDL-generation child event through
the shared executor. -/
theorem handleAnchor_proc_only (cfg : SolitaConfigAnchor)
    (pc : Option PrettierOptions) (p : ProbeEvent) (t : CargoToml)
    (ip ip' : ProcEvent) (er : Except Rejection Idl) (gr : Except Rejection Unit)
    (h : ∀ (s e : Event SolitaConfigAnchor) (g : Idl → Event SolitaConfigAnchor),
      idlGeneratorRun s e g ip er gr = idlGeneratorRun s e g ip' er gr) :
    handleAnchor cfg pc ⟨p, t, ip, er, gr⟩ = handleAnchor cfg pc ⟨p, t, ip', er, gr⟩ := by
  unfold handleAnchor
  cases hA : getAnchorCommandVersion p with
  | error r => rfl
  | ok v₁ =>
    cases hB : getAnchorVersionInToml (pathJoin cfg.programDir "Cargo.toml") t with
    | error m => rfl
    | ok v₂ =>
      by_cases hv : v₁ ≠ v₂
      · simp [hv]
      · simp only [ne_eq, not_not] at hv
        simp only [hv, ne_eq, not_true_eq_false, if_false, ite_false]
        exact h _ _ _

/-- `handle` only looks at the IDL-generation child event through the
shared executor. -/
theorem handle_proc_only (cfg : SolitaConfig) (rc : RustbinConfig)
    (args : List String) (so : SpawnOptionsWithoutStdio)
    (pc : Option PrettierOptions) (ra : Option Bool) (rbr : RustbinMatchReturn)
    (ip ip' : ProcEvent) (er : Except Rejection Idl) (gr : Except Rejection Unit)
    (h : ∀ (s e : Event SolitaConfig) (g : Idl → Event SolitaConfig),
      idlGeneratorRun s e g ip er gr = idlGeneratorRun s e g ip' er gr) :
    handle cfg rc args so pc ra ⟨rbr, ip, er, gr⟩ =
      handle cfg rc args so pc ra ⟨rbr, ip', er, gr⟩ := by
  unfold handle
  cases hb : rbr.binVersion with
  | none => rfl
  | some bv => exact h _ _ _

/-! ## Claims -/

/-- Claim C4: for every parsed manifest table containing the
`anchor-lang` entry, version resolution returns exactly the bare version
string when the entry is a string, and exactly the table's `version`
field when the entry is a table, ignoring any extra fields. -/
theorem anchorVersionInToml_present (cargoToml : String) (parsed : CargoToml)
    (v : String) (extra : List (String × String)) :
    (recordGet parsed.dependencies "anchor-lang" = some (.str v) →
      getAnchorVersionInToml cargoToml parsed = .ok v) ∧
    (recordGet parsed.dependencies "anchor-lang" = some (.table v extra) →
      getAnchorVersionInToml cargoToml parsed = .ok v) := by
  constructor <;> intro h <;> unfold getAnchorVersionInToml <;> rw [h]

theorem anchorVersionInToml_present_witness :
    getAnchorVersionInToml "program/Cargo.toml" tomlStr = .ok "0.27.0" ∧
    getAnchorVersionInToml "program/Cargo.toml" tomlTab = .ok "0.26.0" :=
  ⟨(anchorVersionInToml_present "program/Cargo.toml" tomlStr "0.27.0" []).1 rfl,
   (anchorVersionInToml_present "program/Cargo.toml" tomlTab "0.26.0"
      [("features", "init-if-needed")]).2 rfl⟩

/-- Claim C5: for every parsed manifest table in which the looked-up
dependency entry is absent, version resolution fails with an error
naming the missing dependency (the source spells it in its
crate-identifier form `anchor_lang`) and containing the manifest file
path. -/
theorem anchorVersionInToml_missing (cargoToml : String) (parsed : CargoToml)
    (h : recordGet parsed.dependencies "anchor-lang" = none) :
    getAnchorVersionInToml cargoToml parsed =
      .error ("anchor_lang not found as dependency in " ++ cargoToml) ∧
    strHas ("anchor_lang not found as dependency in " ++ cargoToml) "anchor_lang" = true ∧
    strHas ("anchor_lang not found as dependency in " ++ cargoToml) cargoToml = true := by
  refine ⟨?_, ?_, ?_⟩
  · unfold getAnchorVersionInToml
    rw [h]
  · apply strHas_split _ "" "anchor_lang" (" not found as dependency in " ++ cargoToml)
    have hlit : "anchor_lang not found as dependency in ".toList =
        "anchor_lang".toList ++ " not found as dependency in ".toList := by decide
    simp [toList_append, toList_empty, hlit]
  · apply strHas_split _ "anchor_lang not found as dependency in " cargoToml ""
    simp [toList_append, toList_empty]

theorem anchorVersionInToml_missing_witness :
    getAnchorVersionInToml "program/Cargo.toml" (CargoToml.mk []) =
      .error ("anchor_lang not found as dependency in " ++ "program/Cargo.toml") ∧
    strHas ("anchor_lang not found as dependency in " ++ "program/Cargo.toml") "anchor_lang" = true ∧
    strHas ("anchor_lang not found as dependency in " ++ "program/Cargo.toml") "program/Cargo.toml" = true :=
  anchorVersionInToml_missing "program/Cargo.toml" ⟨[]⟩ rfl

/-- Counterexample to claim C8 as stated: a probe run whose collected
stdout does contain a match of the fixed pattern (captured substring
`0.27.0`) but which closed with exit code 1 does not resolve with the
captured substring — it rejects with the exit-code error. -/
theorem probe_pattern_counterexample :
    matchAnchorCli ("anchor-cli 0.27.0".toList) = some "0.27.0" ∧
    getAnchorCommandVersion (.close (some 1) "anchor-cli 0.27.0") =
      .error (.err "Error" "Process exited with code 1") :=
  ⟨by decide, rfl⟩

/-- Claim C8 (amended): for every version-probe run, if the collected
stdout contains no match of the fixed pattern the probe rejects; and on
a run that closes with exit code 0 and whose stdout matches, it resolves
with exactly the captured semantic-version substring. -/
theorem probe_pattern (code : Option Int) (stdoutData : String) :
    (matchAnchorCli stdoutData.toList = none →
      ∃ r, getAnchorCommandVersion (.close code stdoutData) = .error r) ∧
    (∀ v, code = some 0 → matchAnchorCli stdoutData.toList = some v →
      getAnchorCommandVersion (.close code stdoutData) = .ok v) := by
  constructor
  · intro h
    by_cases hc : code = some 0
    · subst hc
      refine ⟨.str "Anchor version matching failed", ?_⟩
      unfold getAnchorCommandVersion
      have hd : matchAnchorCli stdoutData.data = none := h
      simp [hd]
    · refine ⟨.err "Error" ("Process exited with code " ++ codeText code), ?_⟩
      unfold getAnchorCommandVersion
      simp [hc]
  · intro v hc hm
    subst hc
    unfold getAnchorCommandVersion
    have hd : matchAnchorCli stdoutData.data = some v := hm
    simp [hd]

theorem probe_pattern_witness :
    (∃ r, getAnchorCommandVersion (.close (some 0) "no version here") = .error r) ∧
    getAnchorCommandVersion (.close (some 0) "anchor-cli 1.2.3") = .ok "1.2.3" :=
  ⟨(probe_pattern (some 0) "no version here").1 (by decide),
   (probe_pattern (some 0) "anchor-cli 1.2.3").2 "1.2.3" rfl (by decide)⟩

/-- Claim C9: for every probe run that closes with a non-zero exit code,
`getAnchorCommandVersion` rejects with an error whose message contains
that exit code, and the result does not depend on the collected stdout
— no pattern matching is attempted on it. -/
theorem probe_nonzero_exit_code (n : Int) (hn : n ≠ 0) (stdoutData other : String) :
    getAnchorCommandVersion (.close (some n) stdoutData) =
      .error (.err "Error" ("Process exited with code " ++ toString n)) ∧
    strHas ("Process exited with code " ++ toString n) (toString n) = true ∧
    getAnchorCommandVersion (.close (some n) stdoutData) =
      getAnchorCommandVersion (.close (some n) other) := by
  refine ⟨?_, ?_, ?_⟩
  · unfold getAnchorCommandVersion
    simp [hn, codeText]
  · apply strHas_split _ "Process exited with code " (toString n) ""
    simp [toList_append, toList_empty]
  · unfold getAnchorCommandVersion
    simp [hn]

theorem probe_nonzero_exit_code_witness :
    getAnchorCommandVersion (.close (some 1) "anchor-cli 0.27.0") =
      .error (.err "Error" ("Process exited with code " ++ toString (1 : Int))) ∧
    strHas ("Process exited with code " ++ toString (1 : Int)) (toString (1 : Int)) = true ∧
    getAnchorCommandVersion (.close (some 1) "anchor-cli 0.27.0") =
      getAnchorCommandVersion (.close (some 1) "") :=
  probe_nonzero_exit_code 1 (by decide) "anchor-cli 0.27.0" ""

/-- Claim C1: in `handleAnchor`, for every pair of probed CLI version and
manifest-declared version, if the two differ the run rejects with an
error whose message contains both version strings and makes no external
call at all (in particular the IDL-generation process is never spawned);
if they are equal the run's first external call is the IDL-generation
spawn. -/
theorem handleAnchor_version_gate (config : SolitaConfigAnchor)
    (pc : Option PrettierOptions) (env : AnchorEnv) (v₁ v₂ : String)
    (h₁ : getAnchorCommandVersion env.probe = .ok v₁)
    (h₂ : getAnchorVersionInToml (pathJoin config.programDir "Cargo.toml") env.parsed = .ok v₂) :
    (v₁ ≠ v₂ →
      handleAnchor config pc env =
        ([], some (.error (.err "Error"
          ("Anchor version mismatch! Selected anchor cli: " ++ v₁ ++
            ", in Cargo.toml: " ++ v₂)))) ∧
      strHas ("Anchor version mismatch! Selected anchor cli: " ++ v₁ ++
        ", in Cargo.toml: " ++ v₂) v₁ = true ∧
      strHas ("Anchor version mismatch! Selected anchor cli: " ++ v₁ ++
        ", in Cargo.toml: " ++ v₂) v₂ = true) ∧
    (v₁ = v₂ →
      ∃ rest, (handleAnchor config pc env).1 =
        .spawn "anchor" ["build", "--idl", config.idlDir] config.programDir :: rest) := by
  constructor
  · intro hne
    refine ⟨?_, ?_, ?_⟩
    · unfold handleAnchor
      rw [h₁, h₂]
      simp [hne]
    · apply strHas_split _ "Anchor version mismatch! Selected anchor cli: " v₁
        (", in Cargo.toml: " ++ v₂)
      simp [toList_append]
    · apply strHas_split _
        ("Anchor version mismatch! Selected anchor cli: " ++ v₁ ++ ", in Cargo.toml: ") v₂ ""
      simp [toList_append, toList_empty]
  · intro heq
    subst heq
    rw [handleAnchor_run config pc env v₁ h₁ h₂]
    exact idlGeneratorRun_head _ _ _ _ _ _

theorem handleAnchor_version_gate_witness :
    handleAnchor sampleCfgA none sampleEnvAMismatch =
      ([], some (.error (.err "Error"
        ("Anchor version mismatch! Selected anchor cli: " ++ "0.27.0" ++
          ", in Cargo.toml: " ++ "0.26.0")))) ∧
    ∃ rest, (handleAnchor sampleCfgA none sampleEnvA).1 =
      .spawn "anchor" ["build", "--idl", sampleCfgA.idlDir] sampleCfgA.programDir :: rest :=
  ⟨((handleAnchor_version_gate sampleCfgA none sampleEnvAMismatch "0.27.0" "0.26.0" rfl rfl).1
      (by decide)).1,
   (handleAnchor_version_gate sampleCfgA none sampleEnvA "0.27.0" "0.27.0" rfl rfl).2 rfl⟩

/-- Claim C2: both in `handleAnchor` and in `handle`, the run's outcome
is the same function of the environment whatever exit code the
successfully spawned IDL-generation child reports (the exit callback
never inspects it), and when the pre-spawn checks pass and the
collaborators succeed the completion promise resolves for every exit
code, non-zero ones included. -/
theorem exit_code_never_inspected
    (cfgA : SolitaConfigAnchor) (cfg : SolitaConfig) (rc : RustbinConfig)
    (args : List String) (so : SpawnOptionsWithoutStdio)
    (pc : Option PrettierOptions) (ra : Option Bool)
    (envA : AnchorEnv) (envH : HandleEnv) (c c' : Option Int) :
    handleAnchor cfgA pc (envWithExit envA c) = handleAnchor cfgA pc (envWithExit envA c') ∧
    handle cfg rc args so pc ra (henvWithExit envH c) =
      handle cfg rc args so pc ra (henvWithExit envH c') ∧
    (∀ v idl, getAnchorCommandVersion envA.probe = .ok v →
      getAnchorVersionInToml (pathJoin cfgA.programDir "Cargo.toml") envA.parsed = .ok v →
      envA.enhanceRes = .ok idl → envA.generateRes = .ok () →
      (handleAnchor cfgA pc (envWithExit envA c)).2 = some (.ok ())) ∧
    (∀ bv idl, envH.rustbinRes.binVersion = some bv →
      envH.enhanceRes = .ok idl → envH.generateRes = .ok () →
      (handle cfg rc args so pc ra (henvWithExit envH c)).2 = some (.ok ())) := by
  refine ⟨?_, ?_, ?_, ?_⟩
  · exact handleAnchor_proc_only cfgA pc envA.probe envA.parsed (.exit c) (.exit c')
      envA.enhanceRes envA.generateRes
      (fun s e g => idlGeneratorRun_exit_code_irrelevant s e g c c' _ _)
  · exact handle_proc_only cfg rc args so pc ra envH.rustbinRes (.exit c) (.exit c')
      envH.enhanceRes envH.generateRes
      (fun s e g => idlGeneratorRun_exit_code_irrelevant s e g c c' _ _)
  · intro v idl h₁ h₂ he hg
    rw [handleAnchor_run cfgA pc (envWithExit envA c) v h₁ h₂]
    show (idlGeneratorRun _ _ _ (.exit c) envA.enhanceRes envA.generateRes).2 = _
    rw [he, hg, idlGeneratorRun_ok]
  · intro bv idl hb he hg
    rw [handle_run cfg rc args so pc ra (henvWithExit envH c) bv hb]
    show (idlGeneratorRun _ _ _ (.exit c) envH.enhanceRes envH.generateRes).2 = _
    rw [he, hg, idlGeneratorRun_ok]

theorem exit_code_never_inspected_witness :
    (handleAnchor sampleCfgA none (envWithExit sampleEnvA (some 1))).2 = some (.ok ()) ∧
    (handle sampleCfg sampleRc ["idl"] ⟨"program"⟩ none (some false)
      (henvWithExit sampleEnvH (some 1))).2 = some (.ok ()) :=
  ⟨(exit_code_never_inspected sampleCfgA sampleCfg sampleRc ["idl"] ⟨"program"⟩ none (some false)
      sampleEnvA sampleEnvH (some 1) (some 0)).2.2.1 "0.27.0" "idl-json" rfl rfl rfl rfl,
   (exit_code_never_inspected sampleCfgA sampleCfg sampleRc ["idl"] ⟨"program"⟩ none (some false)
      sampleEnvA sampleEnvH (some 1) (some 0)).2.2.2 "0.0.12" "idl-json" rfl rfl rfl⟩

/-- Claim C3: on a clean termination of the IDL-generation child (with
succeeding collaborators), both orchestrators make exactly the three
external calls, in order: the spawn, one `enhanceIdl` call carrying the
config and both resolved version strings, then one
`generateTypeScriptSDK` call whose SDK output directory is the config's
`sdkDir` unmodified. -/
theorem clean_exit_enhance_then_generate
    (cfgA : SolitaConfigAnchor) (cfg : SolitaConfig) (rc : RustbinConfig)
    (args : List String) (so : SpawnOptionsWithoutStdio)
    (pc : Option PrettierOptions) (ra : Option Bool)
    (envA : AnchorEnv) (envH : HandleEnv) (c c' : Option Int)
    (v bv : String) (idlA idlH : Idl)
    (h₁ : getAnchorCommandVersion envA.probe = .ok v)
    (h₂ : getAnchorVersionInToml (pathJoin cfgA.programDir "Cargo.toml") envA.parsed = .ok v)
    (hxA : envA.idlProc = .exit c)
    (heA : envA.enhanceRes = .ok idlA) (hgA : envA.generateRes = .ok ())
    (hb : envH.rustbinRes.binVersion = some bv)
    (hxH : envH.idlProc = .exit c')
    (heH : envH.enhanceRes = .ok idlH) (hgH : envH.generateRes = .ok ()) :
    handleAnchor cfgA pc envA =
      ([.spawn "anchor" ["build", "--idl", cfgA.idlDir] cfgA.programDir,
        .enhance cfgA v v,
        .generate idlA cfgA.sdkDir pc cfgA.typeAliases cfgA.serializers
          cfgA.anchorRemainingAccounts],
       some (.ok ())) ∧
    handle cfg rc args so pc ra envH =
      ([.spawn envH.rustbinRes.fullPathToBinary args so.cwd,
        .enhance cfg bv envH.rustbinRes.libVersion,
        .generate idlH cfg.sdkDir pc cfg.typeAliases cfg.serializers ra],
       some (.ok ())) := by
  constructor
  · rw [handleAnchor_run cfgA pc envA v h₁ h₂, hxA, heA, hgA, idlGeneratorRun_ok]
  · rw [handle_run cfg rc args so pc ra envH bv hb, hxH, heH, hgH, idlGeneratorRun_ok]

theorem clean_exit_enhance_then_generate_witness :
    handleAnchor sampleCfgA none sampleEnvA =
      ([.spawn "anchor" ["build", "--idl", sampleCfgA.idlDir] sampleCfgA.programDir,
        .enhance sampleCfgA "0.27.0" "0.27.0",
        .generate "idl-json" sampleCfgA.sdkDir none sampleCfgA.typeAliases
          sampleCfgA.serializers sampleCfgA.anchorRemainingAccounts],
       some (.ok ())) ∧
    handle sampleCfg sampleRc ["idl"] ⟨"program"⟩ none (some false) sampleEnvH =
      ([.spawn sampleEnvH.rustbinRes.fullPathToBinary ["idl"] "program",
        .enhance sampleCfg "0.0.12" sampleEnvH.rustbinRes.libVersion,
        .generate "idl-json" sampleCfg.sdkDir none sampleCfg.typeAliases
          sampleCfg.serializers (some false)],
       some (.ok ())) :=
  clean_exit_enhance_then_generate sampleCfgA sampleCfg sampleRc ["idl"] ⟨"program"⟩
    none (some false) sampleEnvA sampleEnvH (some 0) (some 0) "0.27.0" "0.0.12"
    "idl-json" "idl-json" rfl rfl rfl rfl rfl rfl rfl rfl rfl

/-- Claim C6: in `handle`, whenever the installer's result carries a
null installed-binary version, the run rejects with an error whose
message names the binary and makes no external call at all — the
IDL-generation process is never spawned even though a path to a binary
was returned. -/
theorem handle_null_binVersion_aborts (cfg : SolitaConfig) (rc : RustbinConfig)
    (args : List String) (so : SpawnOptionsWithoutStdio)
    (pc : Option PrettierOptions) (ra : Option Bool) (env : HandleEnv)
    (hb : env.rustbinRes.binVersion = none) :
    handle cfg rc args so pc ra env =
      ([], some (.error (.err "Error"
        ("rustbin was unable to determine installed version " ++ rc.binaryName ++
          ", it may not have been installed correctly.")))) ∧
    strHas ("rustbin was unable to determine installed version " ++ rc.binaryName ++
      ", it may not have been installed correctly.") rc.binaryName = true := by
  constructor
  · unfold handle
    rw [hb]
  · apply strHas_split _ "rustbin was unable to determine installed version " rc.binaryName
      ", it may not have been installed correctly."
    simp [toList_append]

theorem handle_null_binVersion_aborts_witness :
    handle sampleCfg sampleRc ["idl"] ⟨"program"⟩ none (some false) sampleEnvHNoBin =
      ([], some (.error (.err "Error"
        ("rustbin was unable to determine installed version " ++ sampleRc.binaryName ++
          ", it may not have been installed correctly.")))) ∧
    strHas ("rustbin was unable to determine installed version " ++ sampleRc.binaryName ++
      ", it may not have been installed correctly.") sampleRc.binaryName = true :=
  handle_null_binVersion_aborts sampleCfg sampleRc ["idl"] ⟨"program"⟩ none (some false)
    sampleEnvHNoBin rfl

/-- Claim C7: a spawn failure for a non-existent executable (a Node
error named `Error` whose message carries `ENOENT`) is distinguishable
as "executable missing" through the decidable classifier `execMissing`
at all three spawn sites: the version probe maps it to its dedicated
not-installed rejection, while the IDL-generation spawns of
`handleAnchor` and `handle` reject with the error itself, whose
classification is exactly the `ENOENT` test — so a generic spawn error
(no `ENOENT` in its message) is classified as not missing. -/
theorem spawn_enoent_distinguishable (e : SpawnErr)
    (cfgA : SolitaConfigAnchor) (cfg : SolitaConfig) (rc : RustbinConfig)
    (args : List String) (so : SpawnOptionsWithoutStdio)
    (pc : Option PrettierOptions) (ra : Option Bool)
    (envA : AnchorEnv) (envH : HandleEnv) (v bv : String)
    (h₁ : getAnchorCommandVersion envA.probe = .ok v)
    (h₂ : getAnchorVersionInToml (pathJoin cfgA.programDir "Cargo.toml") envA.parsed = .ok v)
    (hxA : envA.idlProc = .error e)
    (hb : envH.rustbinRes.binVersion = some bv)
    (hxH : envH.idlProc = .error e) :
    (e.name = "Error" → strHas e.message "ENOENT" = true →
      getAnchorCommandVersion (.error e) = .error (.str "Anchor is not installed!") ∧
      execMissing (.str "Anchor is not installed!") = true) ∧
    (strHas e.message "ENOENT" = false →
      ∃ r, getAnchorCommandVersion (.error e) = .error r ∧ execMissing r = false) ∧
    ((handleAnchor cfgA pc envA).2 = some (.error (.err e.name e.message)) ∧
      execMissing (.err e.name e.message) = strHas e.message "ENOENT") ∧
    ((handle cfg rc args so pc ra envH).2 = some (.error (.err e.name e.message)) ∧
      execMissing (.err e.name e.message) = strHas e.message "ENOENT") := by
  refine ⟨?_, ?_, ⟨?_, rfl⟩, ⟨?_, rfl⟩⟩
  · intro hn hm
    refine ⟨?_, by decide⟩
    show (if e.name = "Error" ∧ strHas e.message "ENOENT" = true then
        (Except.error (Rejection.str "Anchor is not installed!") : Except Rejection String)
      else .error (.err e.name e.message)) = .error (.str "Anchor is not installed!")
    rw [if_pos ⟨hn, hm⟩]
  · intro hm
    have hcond : ¬ (e.name = "Error" ∧ strHas e.message "ENOENT" = true) := by
      rintro ⟨-, hc⟩
      rw [hm] at hc
      cases hc
    refine ⟨.err e.name e.message, ?_, ?_⟩
    · show (if e.name = "Error" ∧ strHas e.message "ENOENT" = true then
          (Except.error (Rejection.str "Anchor is not installed!") : Except Rejection String)
        else .error (.err e.name e.message)) = .error (.err e.name e.message)
      rw [if_neg hcond]
    · simp [execMissing, hm]
  · rw [handleAnchor_run cfgA pc envA v h₁ h₂, hxA, idlGeneratorRun_spawn_error]
  · rw [handle_run cfg rc args so pc ra envH bv hb, hxH, idlGeneratorRun_spawn_error]

theorem spawn_enoent_distinguishable_witness :
    (sampleEnoent.name = "Error" → strHas sampleEnoent.message "ENOENT" = true →
      getAnchorCommandVersion (.error sampleEnoent) = .error (.str "Anchor is not installed!") ∧
      execMissing (.str "Anchor is not installed!") = true) ∧
    (strHas sampleEnoent.message "ENOENT" = false →
      ∃ r, getAnchorCommandVersion (.error sampleEnoent) = .error r ∧ execMissing r = false) ∧
    ((handleAnchor sampleCfgA none sampleEnvASpawnFail).2 =
        some (.error (.err sampleEnoent.name sampleEnoent.message)) ∧
      execMissing (.err sampleEnoent.name sampleEnoent.message) =
        strHas sampleEnoent.message "ENOENT") ∧
    ((handle sampleCfg sampleRc ["idl"] ⟨"program"⟩ none (some false) sampleEnvHSpawnFail).2 =
        some (.error (.err sampleEnoent.name sampleEnoent.message)) ∧
      execMissing (.err sampleEnoent.name sampleEnoent.message) =
        strHas sampleEnoent.message "ENOENT") :=
  spawn_enoent_distinguishable sampleEnoent sampleCfgA sampleCfg sampleRc ["idl"] ⟨"program"⟩
    none (some false) sampleEnvASpawnFail sampleEnvHSpawnFail "0.27.0" "0.0.12"
    rfl rfl rfl rfl rfl

/-- Claim C10: when the IDL-generation child exits cleanly but the
subsequent `enhanceIdl` call rejects, or `enhanceIdl` succeeds and
`generateTypeScriptSDK` rejects, the promise returned by the
orchestration is never settled — neither resolved nor rejected — in both
`handleAnchor` and `handle`. -/
theorem downstream_failure_never_settles
    (cfgA : SolitaConfigAnchor) (cfg : SolitaConfig) (rc : RustbinConfig)
    (args : List String) (so : SpawnOptionsWithoutStdio)
    (pc : Option PrettierOptions) (ra : Option Bool)
    (envA : AnchorEnv) (envH : HandleEnv) (c c' : Option Int) (v bv : String)
    (h₁ : getAnchorCommandVersion envA.probe = .ok v)
    (h₂ : getAnchorVersionInToml (pathJoin cfgA.programDir "Cargo.toml") envA.parsed = .ok v)
    (hxA : envA.idlProc = .exit c)
    (hb : envH.rustbinRes.binVersion = some bv)
    (hxH : envH.idlProc = .exit c') :
    ((∃ r, envA.enhanceRes = .error r) ∨
      (∃ idl r, envA.enhanceRes = .ok idl ∧ envA.generateRes = .error r) →
      (handleAnchor cfgA pc envA).2 = none) ∧
    ((∃ r, envH.enhanceRes = .error r) ∨
      (∃ idl r, envH.enhanceRes = .ok idl ∧ envH.generateRes = .error r) →
      (handle cfg rc args so pc ra envH).2 = none) := by
  constructor
  · intro hfail
    rw [handleAnchor_run cfgA pc envA v h₁ h₂, hxA]
    rcases hfail with ⟨r, hr⟩ | ⟨idl, r, hi, hr⟩
    · rw [hr, idlGeneratorRun_enhance_fail]
    · rw [hi, hr, idlGeneratorRun_generate_fail]
  · intro hfail
    rw [handle_run cfg rc args so pc ra envH bv hb, hxH]
    rcases hfail with ⟨r, hr⟩ | ⟨idl, r, hi, hr⟩
    · rw [hr, idlGeneratorRun_enhance_fail]
    · rw [hi, hr, idlGeneratorRun_generate_fail]

theorem downstream_failure_never_settles_witness :
    (handleAnchor sampleCfgA none sampleEnvAEnhanceFail).2 = none ∧
    (handle sampleCfg sampleRc ["idl"] ⟨"program"⟩ none (some false) sampleEnvHGenFail).2 = none :=
  ⟨(downstream_failure_never_settles sampleCfgA sampleCfg sampleRc ["idl"] ⟨"program"⟩
      none (some false) sampleEnvAEnhanceFail sampleEnvHGenFail (some 0) (some 0)
      "0.27.0" "0.0.12" rfl rfl rfl rfl rfl).1 (Or.inl ⟨.err "Error" "boom", rfl⟩),
   (downstream_failure_never_settles sampleCfgA sampleCfg sampleRc ["idl"] ⟨"program"⟩
      none (some false) sampleEnvAEnhanceFail sampleEnvHGenFail (some 0) (some 0)
      "0.27.0" "0.0.12" rfl rfl rfl rfl rfl).2
     (Or.inr ⟨"idl-json", .err "Error" "boom", rfl, rfl⟩)⟩

end Solita
